import Mathlib

/-!
Verification of the shelf-monitoring sensor node (ESP32 firmware).

The definitions below are a shallow embedding of the C++ sources:
  * `Shelf_manager.ino` — slot store, persistence, calibration, scanning;
  * `shelf_config.ino` — the static slot table and counters;
  * `wifi_manager.ino` — multi-credential Wi-Fi rotation;
  * `mqtt_manager.ino` — broker resolution, command router, publications.

Machine floats are modelled as exact rationals (the spec asks for exact
arithmetic), C `int` indices as `ℤ`, sensors and name-service lookups as
explicit inputs, and the key/value flash store as association lists.
-/

/-! ## Arduino `String` operations (ASCII) -/

def isSpaceChar (c : Char) : Bool :=
  c == ' ' || c == '\t' || c == '\n' || c == '\r' || c == '\x0b' || c == '\x0c'

def asciiToLower (c : Char) : Char :=
  if 'A' ≤ c ∧ c ≤ 'Z' then Char.ofNat (c.toNat + 32) else c

def asciiToUpper (c : Char) : Char :=
  if 'a' ≤ c ∧ c ≤ 'z' then Char.ofNat (c.toNat - 32) else c

def strTrim (s : String) : String :=
  String.mk (((s.toList.dropWhile isSpaceChar).reverse.dropWhile isSpaceChar).reverse)

def strLower (s : String) : String :=
  String.mk (s.toList.map asciiToLower)

def strUpper (s : String) : String :=
  String.mk (s.toList.map asciiToUpper)

def strDrop (n : ℕ) (s : String) : String :=
  String.mk (s.toList.drop n)

def startsWithL : List Char → List Char → Bool
  | [], _ => true
  | _ :: _, [] => false
  | p :: ps, c :: cs => p == c && startsWithL ps cs

def strStartsWith (pre s : String) : Bool :=
  startsWithL pre.toList s.toList

def hasSubstrL (needle : List Char) : List Char → Bool
  | [] => needle.isEmpty
  | c :: t => startsWithL needle (c :: t) || hasSubstrL needle t

def strHasSubstr (hay needle : String) : Bool :=
  hasSubstrL needle.toList hay.toList

/-! ## Network Associator (`wifi_manager.ino`, `ConnectWiFi`)

`succeeds k` models whether `TryConnectWiFi` on credential `k` succeeds
within its timeout. `WiFiSt` is the internal state (`wifiConnected`,
`lastSuccessfulWiFiIndex`). The loop visits `(last + i) % N` for
`i = 0 .. N-1`, stopping at the first success. -/

structure WiFiSt where
  wifiConnected : Bool
  lastSuccessfulWiFiIndex : ℕ
deriving DecidableEq, Repr

def connectWiFiLoop (succeeds : ℕ → Bool) (N last : ℕ) : List ℕ → List ℕ × Option ℕ
  | [] => ([], none)
  | i :: rest =>
    let tryIndex := (last + i) % N
    if succeeds tryIndex then ([tryIndex], some tryIndex)
    else
      let r := connectWiFiLoop succeeds N last rest
      (tryIndex :: r.1, r.2)

def connectTries (N last : ℕ) : List ℕ :=
  (List.range N).map (fun i => (last + i) % N)

def ConnectWiFi (succeeds : ℕ → Bool) (N : ℕ) (st : WiFiSt) : WiFiSt × List ℕ :=
  let r := connectWiFiLoop succeeds N st.lastSuccessfulWiFiIndex (List.range N)
  match r.2 with
  | some k => ({ wifiConnected := true, lastSuccessfulWiFiIndex := k }, r.1)
  | none => ({ st with wifiConnected := false }, r.1)

/-! ## Broker address resolution (`mqtt_manager.ino`, `resolveMQTTServer`)

`hostLookup` models `WiFi.hostByName` (the external name service):
`some ip` means the call returned true having written `ip`. `staticParse`
models `IPAddress.fromString` applied to the static fallback address. -/

structure IPv4 where
  a : ℕ
  b : ℕ
  c : ℕ
  d : ℕ
deriving DecidableEq, Repr

def IPv4.zero : IPv4 := ⟨0, 0, 0, 0⟩

def IPv4.isZero (ip : IPv4) : Bool :=
  ip.a == 0 && ip.b == 0 && ip.c == 0 && ip.d == 0

structure MqttLinkSt where
  resolvedIp : Option IPv4
  ipResolved : Bool
deriving DecidableEq, Repr

def resolveFallback (staticParse : Option IPv4) (st : MqttLinkSt) : Bool × MqttLinkSt :=
  match staticParse with
  | some ip => (true, { resolvedIp := some ip, ipResolved := true })
  | none => (false, { st with ipResolved := false })

def resolveMQTTServer (hostLookup staticParse : Option IPv4) (st : MqttLinkSt) :
    Bool × MqttLinkSt :=
  match hostLookup with
  | some ip =>
    if ip.isZero = false then (true, { resolvedIp := some ip, ipResolved := true })
    else resolveFallback staticParse { st with resolvedIp := some ip }
  | none => resolveFallback staticParse st

/-! ## Slot store (`shelf_config.ino` + `Shelf_manager.ino`) -/

structure Slot where
  id : String
  pin : ℕ
  enabled : Bool
  shelf_length : ℚ
deriving DecidableEq

def Slot.dflt : Slot := ⟨"", 0, false, 0⟩

structure Prefs where
  bools : List (String × Bool)
  floats : List (String × ℚ)
deriving DecidableEq

def Prefs.getBool (p : Prefs) (k : String) (d : Bool) : Bool :=
  match p.bools.lookup k with
  | some v => v
  | none => d

def Prefs.getFloat (p : Prefs) (k : String) (d : ℚ) : ℚ :=
  match p.floats.lookup k with
  | some v => v
  | none => d

def Prefs.putBool (p : Prefs) (k : String) (v : Bool) : Prefs :=
  { p with bools := (k, v) :: p.bools }

def Prefs.putFloat (p : Prefs) (k : String) (v : ℚ) : Prefs :=
  { p with floats := (k, v) :: p.floats }

structure ShelfState where
  slots : List Slot
  distance : List ℤ
  prefs : Prefs
deriving DecidableEq

def initialShelfConfig : List Slot :=
  [⟨"A1", 4, false, 0⟩, ⟨"A2", 5, false, 0⟩, ⟨"A3", 6, false, 0⟩,
   ⟨"A4", 7, false, 0⟩, ⟨"B1", 8, false, 0⟩, ⟨"B2", 9, false, 0⟩,
   ⟨"B3", 10, false, 0⟩, ⟨"B4", 11, false, 0⟩, ⟨"C1", 12, false, 0⟩,
   ⟨"C2", 13, false, 0⟩, ⟨"C3", 14, false, 0⟩, ⟨"C4", 15, false, 0⟩]

def initialState : ShelfState :=
  { slots := initialShelfConfig
    distance := List.replicate 12 0
    prefs := ⟨[], []⟩ }

def getEnabledShelfCount (s : ShelfState) : ℕ :=
  s.slots.countP (fun sl => sl.enabled)

def loadShelfConfig (s : ShelfState) : ShelfState :=
  { s with slots := s.slots.map (fun sl =>
      { sl with
        enabled := s.prefs.getBool sl.id false
        shelf_length := s.prefs.getFloat (sl.id ++ "_len") 0 }) }

def saveShelfConfig (i : ℤ) (s : ShelfState) : ShelfState :=
  if 0 ≤ i ∧ i < (s.slots.length : ℤ) then
    let sl := s.slots.getD i.toNat Slot.dflt
    { s with prefs := (s.prefs.putBool sl.id sl.enabled).putFloat (sl.id ++ "_len") sl.shelf_length }
  else s

def clearAllShelfConfig (s : ShelfState) : ShelfState :=
  { s with prefs := ⟨[], []⟩ }

def validCalSamples (samples : List ℤ) : List ℤ :=
  (samples.take 10).filter (fun d => decide (20 ≤ d ∧ d ≤ 4000))

def calibrateShelf (i : ℤ) (samples : List ℤ) (s : ShelfState) : ℚ × ShelfState :=
  if 0 ≤ i ∧ i < (s.slots.length : ℤ) then
    let validReadings : List ℚ := (validCalSamples samples).map (fun d : ℤ => (d : ℚ) / 10)
    if validReadings.length < 5 then (-1, s)
    else
      let average := validReadings.sum / (validReadings.length : ℚ)
      let sl := s.slots.getD i.toNat Slot.dflt
      let s' := { s with slots := s.slots.set i.toNat { sl with shelf_length := average } }
      (average, saveShelfConfig i s')
  else (-1, s)

def getShelfIndexByIdL (shelfId : String) : List Slot → ℤ
  | [] => -1
  | sl :: rest =>
    if sl.id = shelfId then 0
    else
      let r := getShelfIndexByIdL shelfId rest
      if r < 0 then -1 else r + 1

def getShelfIndexById (s : ShelfState) (shelfId : String) : ℤ :=
  getShelfIndexByIdL shelfId s.slots

def getShelfId (i : ℤ) (s : ShelfState) : String :=
  if 0 ≤ i ∧ i < (s.slots.length : ℤ) then (s.slots.getD i.toNat Slot.dflt).id
  else "UNKNOWN"

def isShelfEnabled (i : ℤ) (s : ShelfState) : Bool :=
  if 0 ≤ i ∧ i < (s.slots.length : ℤ) then (s.slots.getD i.toNat Slot.dflt).enabled
  else false

def setShelfEnabled (i : ℤ) (enabled : Bool) (s : ShelfState) : ShelfState :=
  if 0 ≤ i ∧ i < (s.slots.length : ℤ) then
    let sl := s.slots.getD i.toNat Slot.dflt
    let s' := { s with slots := s.slots.set i.toNat { sl with enabled := enabled } }
    saveShelfConfig i s'
  else s

def readAllShelfSensors (readings : ℕ → ℤ) (s : ShelfState) : ShelfState :=
  { s with distance := (List.range s.slots.length).map (fun i =>
      if (s.slots.getD i Slot.dflt).enabled then
        let dist := readings i
        if dist < 20 ∨ dist > 4000 then -1 else dist
      else -1) }

/-! ## MQTT publications and command router (`mqtt_manager.ino`)

Messages are modelled structurally (the JSON field values the firmware
serializes). `connected` models `mqttClient.connected()`; every publish
is a silent no-op while disconnected, as in the source. -/

structure ConfigEntry where
  shelf_id : String
  index : ℕ
  gpio : ℕ
  enabled : Bool
  shelf_length : ℚ
deriving DecidableEq

def ConfigEntry.dflt : ConfigEntry := ⟨"", 0, 0, false, 0⟩

inductive Msg where
  | status (deviceId : String) (shelfCount enabledCount : ℕ)
  | sensorData (deviceId shelfId : String) (index : ℤ) (distanceCm : ℚ)
  | calibrateResult (deviceId shelfId : String) (success : Bool) (shelfLength : ℚ)
  | configResponse (deviceId : String) (entries : List ConfigEntry)
      (totalCount enabledCount : ℕ)
deriving DecidableEq

def publishSystemStatus (connected : Bool) (deviceId : String) (s : ShelfState) : List Msg :=
  if connected then [Msg.status deviceId s.slots.length (getEnabledShelfCount s)] else []

def publishSensorData (connected : Bool) (deviceId : String) (i : ℤ) (s : ShelfState) :
    List Msg :=
  if connected = false then []
  else if i < 0 ∨ (s.slots.length : ℤ) ≤ i then []
  else
    let sl := s.slots.getD i.toNat Slot.dflt
    if sl.enabled = false then []
    else [Msg.sensorData deviceId sl.id i (((s.distance.getD i.toNat 0 : ℤ) : ℚ) / 10)]

def publishAllSensorData (connected : Bool) (deviceId : String) (s : ShelfState) : List Msg :=
  if connected = false then []
  else ((List.range s.slots.length).map (fun i =>
    if (s.slots.getD i Slot.dflt).enabled then publishSensorData connected deviceId (i : ℤ) s
    else [])).flatten

def publishCalibrateResult (connected : Bool) (deviceId shelfId : String)
    (length : ℚ) (success : Bool) : List Msg :=
  if connected then [Msg.calibrateResult deviceId shelfId success length] else []

def handleMQTTCommand (connected : Bool) (deviceId : String) (readings : ℕ → ℤ)
    (calSamples : List ℤ) (command : String) (s : ShelfState) : ShelfState × List Msg :=
  let trimmed := strTrim command
  let originalCommand := trimmed
  let cmd := strLower trimmed
  if cmd = "status" then (s, publishSystemStatus connected deviceId s)
  else if cmd = "read" then
    let s' := readAllShelfSensors readings s
    (s', publishAllSensorData connected deviceId s')
  else if strStartsWith "enable " cmd then
    let shelfId := strUpper (strTrim (strDrop 7 originalCommand))
    let idx := getShelfIndexById s shelfId
    if 0 ≤ idx then
      let s' := setShelfEnabled idx true s
      (s', publishSystemStatus connected deviceId s')
    else (s, [])
  else if strStartsWith "disable " cmd then
    let shelfId := strUpper (strTrim (strDrop 8 originalCommand))
    let idx := getShelfIndexById s shelfId
    if 0 ≤ idx then
      let s' := setShelfEnabled idx false s
      (s', publishSystemStatus connected deviceId s')
    else (s, [])
  else if strStartsWith "calibrate " cmd then
    let shelfId := strUpper (strTrim (strDrop 10 originalCommand))
    let idx := getShelfIndexById s shelfId
    if 0 ≤ idx then
      let r := calibrateShelf idx calSamples s
      (r.2, publishCalibrateResult connected deviceId shelfId r.1 (decide (0 < r.1)))
    else (s, publishCalibrateResult connected deviceId shelfId (-1) false)
  else (s, [])

def configEntries (s : ShelfState) : List ConfigEntry :=
  (List.range s.slots.length).map (fun i =>
    let sl := s.slots.getD i Slot.dflt
    ⟨sl.id, i, sl.pin, sl.enabled, sl.shelf_length⟩)

def handleShelfConfigRequest (connected : Bool) (deviceId : String) (message : String)
    (s : ShelfState) : List Msg :=
  if message.toList.length > 0 ∧ strHasSubstr message deviceId = false ∧
      strHasSubstr message "\"device_id\"" = true then
    []
  else if connected then
    [Msg.configResponse deviceId (configEntries s) s.slots.length (getEnabledShelfCount s)]
  else []

/-! ## Reachable states of the slot store -/

inductive SysStep : ShelfState → ShelfState → Prop where
  | load (s : ShelfState) : SysStep s (loadShelfConfig s)
  | save (i : ℤ) (s : ShelfState) : SysStep s (saveShelfConfig i s)
  | clear (s : ShelfState) : SysStep s (clearAllShelfConfig s)
  | setEnabled (i : ℤ) (b : Bool) (s : ShelfState) : SysStep s (setShelfEnabled i b s)
  | calibrate (i : ℤ) (samples : List ℤ) (s : ShelfState) :
      SysStep s (calibrateShelf i samples s).2
  | scan (readings : ℕ → ℤ) (s : ShelfState) : SysStep s (readAllShelfSensors readings s)
  | command (connected : Bool) (deviceId : String) (readings : ℕ → ℤ) (samples : List ℤ)
      (cmd : String) (s : ShelfState) :
      SysStep s (handleMQTTCommand connected deviceId readings samples cmd s).1

def SysReachable (s : ShelfState) : Prop :=
  Relation.ReflTransGen SysStep initialState s

/-! ## Helper lemmas -/

lemma getD_map_range {α : Type} (f : ℕ → α) (len n : ℕ) (d : α) (h : n < len) :
    ((List.range len).map f).getD n d = f n := by
  simp [List.getD_eq_getElem?_getD, List.getElem?_map, List.getElem?_range h]

lemma getD_set_self {α : Type} (l : List α) (n : ℕ) (a d : α) (h : n < l.length) :
    (l.set n a).getD n d = a := by
  simp [List.getD_eq_getElem?_getD, List.getElem?_set_self h]

lemma getD_map_of_lt {α β : Type} (f : α → β) (l : List α) (n : ℕ) (d : α) (e : β)
    (h : n < l.length) : (l.map f).getD n e = f (l.getD n d) := by
  rw [List.getD_eq_getElem?_getD, List.getD_eq_getElem?_getD, List.getElem?_map,
    List.getElem?_eq_getElem h]
  rfl

lemma Prefs.getBool_putBool_self (p : Prefs) (k : String) (v : Bool) (d : Bool) :
    (p.putBool k v).getBool k d = v := by
  simp [Prefs.getBool, Prefs.putBool, List.lookup]

lemma Prefs.getFloat_putFloat_self (p : Prefs) (k : String) (v : ℚ) (d : ℚ) :
    (p.putFloat k v).getFloat k d = v := by
  simp [Prefs.getFloat, Prefs.putFloat, List.lookup]

lemma Prefs.getBool_putFloat (p : Prefs) (k k' : String) (v : ℚ) (d : Bool) :
    (p.putFloat k v).getBool k' d = p.getBool k' d := by
  simp [Prefs.getBool, Prefs.putFloat]

lemma Prefs.getFloat_putBool (p : Prefs) (k k' : String) (v : Bool) (d : ℚ) :
    (p.putBool k v).getFloat k' d = p.getFloat k' d := by
  simp [Prefs.getFloat, Prefs.putBool]

lemma slots_saveShelfConfig (i : ℤ) (s : ShelfState) :
    (saveShelfConfig i s).slots = s.slots := by
  unfold saveShelfConfig
  split <;> rfl

lemma distance_saveShelfConfig (i : ℤ) (s : ShelfState) :
    (saveShelfConfig i s).distance = s.distance := by
  unfold saveShelfConfig
  split <;> rfl

lemma getShelfIndexByIdL_nonneg (shelfId : String) (l : List Slot) :
    0 ≤ getShelfIndexByIdL shelfId l →
    (getShelfIndexByIdL shelfId l).toNat < l.length ∧
    (l.getD (getShelfIndexByIdL shelfId l).toNat Slot.dflt).id = shelfId := by
  induction l with
  | nil => intro h; simp [getShelfIndexByIdL] at h
  | cons sl rest ih =>
    intro h
    by_cases hid : sl.id = shelfId
    · simp [getShelfIndexByIdL, hid, List.getD]
    · by_cases hr : getShelfIndexByIdL shelfId rest < 0
      · exfalso
        simp [getShelfIndexByIdL, hid, hr] at h
      · have h0 : 0 ≤ getShelfIndexByIdL shelfId rest := by omega
        obtain ⟨ih1, ih2⟩ := ih h0
        have hval : getShelfIndexByIdL shelfId (sl :: rest)
            = getShelfIndexByIdL shelfId rest + 1 := by
          simp [getShelfIndexByIdL, hid, hr]
        have htn : (getShelfIndexByIdL shelfId rest + 1).toNat
            = (getShelfIndexByIdL shelfId rest).toNat + 1 := by omega
        constructor
        · rw [hval, htn]; simpa using ih1
        · rw [hval, htn]
          simpa [List.getD] using ih2

lemma isShelfEnabled_setShelfEnabled (i : ℤ) (b : Bool) (s : ShelfState)
    (h : 0 ≤ i ∧ i < (s.slots.length : ℤ)) :
    isShelfEnabled i (setShelfEnabled i b s) = b := by
  have hn : i.toNat < s.slots.length := by omega
  unfold setShelfEnabled
  rw [if_pos h]
  unfold isShelfEnabled
  rw [slots_saveShelfConfig]
  have hlen : ((s.slots.set i.toNat
      { s.slots.getD i.toNat Slot.dflt with enabled := b }).length : ℤ) = s.slots.length := by
    simp
  rw [if_pos (by omega : 0 ≤ i ∧ i < ((s.slots.set i.toNat
      { s.slots.getD i.toNat Slot.dflt with enabled := b }).length : ℤ))]
  rw [getD_set_self _ _ _ _ hn]

lemma connectWiFiLoop_append (f : ℕ → Bool) (N last : ℕ) (l : List ℕ) :
    ∃ t, (connectWiFiLoop f N last l).1 ++ t = l.map (fun i => (last + i) % N) := by
  induction l with
  | nil => exact ⟨[], rfl⟩
  | cons i rest ih =>
    cases hf : f ((last + i) % N)
    · obtain ⟨t, ht⟩ := ih
      exact ⟨t, by simp [connectWiFiLoop, hf, ht]⟩
    · exact ⟨rest.map (fun i => (last + i) % N), by simp [connectWiFiLoop, hf]⟩

lemma connectWiFiLoop_some (f : ℕ → Bool) (N last : ℕ) (l : List ℕ) (k : ℕ) :
    (connectWiFiLoop f N last l).2 = some k →
    (connectWiFiLoop f N last l).1
      = (l.map (fun i => (last + i) % N)).takeWhile (fun a => !f a) ++ [k] ∧
    f k = true := by
  induction l with
  | nil => intro h; simp [connectWiFiLoop] at h
  | cons i rest ih =>
    intro h
    cases hf : f ((last + i) % N)
    · rw [show connectWiFiLoop f N last (i :: rest)
          = (((last + i) % N) :: (connectWiFiLoop f N last rest).1,
             (connectWiFiLoop f N last rest).2) by simp [connectWiFiLoop, hf]] at h ⊢
      obtain ⟨ih1, ih2⟩ := ih h
      refine ⟨?_, ih2⟩
      simp [List.takeWhile_cons, hf, ih1]
    · rw [show connectWiFiLoop f N last (i :: rest)
          = ([(last + i) % N], some ((last + i) % N)) by simp [connectWiFiLoop, hf]] at h ⊢
      simp at h
      subst h
      simp [List.takeWhile_cons, hf]

lemma connectWiFiLoop_none (f : ℕ → Bool) (N last : ℕ) (l : List ℕ) :
    (connectWiFiLoop f N last l).2 = none →
    (connectWiFiLoop f N last l).1 = l.map (fun i => (last + i) % N) ∧
    ∀ a ∈ l.map (fun i => (last + i) % N), f a = false := by
  induction l with
  | nil => intro _; simp [connectWiFiLoop]
  | cons i rest ih =>
    intro h
    cases hf : f ((last + i) % N)
    · rw [show connectWiFiLoop f N last (i :: rest)
          = (((last + i) % N) :: (connectWiFiLoop f N last rest).1,
             (connectWiFiLoop f N last rest).2) by simp [connectWiFiLoop, hf]] at h ⊢
      obtain ⟨ih1, ih2⟩ := ih h
      refine ⟨by simp [ih1], ?_⟩
      intro a ha
      simp at ha
      rcases ha with ha | ha
      · rw [ha]; exact hf
      · exact ih2 a (by simpa using ha)
    · rw [show connectWiFiLoop f N last (i :: rest)
          = ([(last + i) % N], some ((last + i) % N)) by simp [connectWiFiLoop, hf]] at h
      simp at h

lemma connectWiFiLoop_head (f : ℕ → Bool) (N last i : ℕ) (rest : List ℕ) :
    (connectWiFiLoop f N last (i :: rest)).1.head? = some ((last + i) % N) := by
  cases hf : f ((last + i) % N) <;> simp [connectWiFiLoop, hf]

lemma connectTries_nodup (N last : ℕ) : (connectTries N last).Nodup := by
  unfold connectTries
  refine List.Nodup.map_on ?_ (List.nodup_range N)
  intro x hx y hy hxy
  simp only [List.mem_range] at hx hy
  have h1 : x ≡ y [MOD N] := Nat.ModEq.add_left_cancel' last hxy
  have h2 : x % N = y % N := h1
  rwa [Nat.mod_eq_of_lt hx, Nat.mod_eq_of_lt hy] at h2

lemma mem_connectTries_lt (N last a : ℕ) (hN : 0 < N) (h : a ∈ connectTries N last) :
    a < N := by
  simp only [connectTries, List.mem_map] at h
  obtain ⟨i, _, hi⟩ := h
  rw [← hi]
  exact Nat.mod_lt _ hN

/-! ## Claim theorems -/

/-- Claim C2: for every in-range slot index, if fewer than 5 of the 10
calibration samples lie in [20mm, 4000mm], `calibrateShelf` returns the
failure value −1.0 and leaves the whole state — in particular the slot's
in-memory reference length and the persisted store — exactly as before. -/
theorem claimC2_calibrate_failure_atomic (s : ShelfState) (i : ℤ) (samples : List ℤ)
    (hrange : 0 ≤ i ∧ i < (s.slots.length : ℤ))
    (hfew : (validCalSamples samples).length < 5) :
    calibrateShelf i samples s = (-1, s) := by
  unfold calibrateShelf
  rw [if_pos hrange]
  simp only []
  rw [if_pos (by rw [List.length_map]; exact hfew)]

theorem claimC2_witness :
    (0 ≤ (0 : ℤ) ∧ (0 : ℤ) < (initialState.slots.length : ℤ)) ∧
    (validCalSamples [10, 10, 10, 10, 10, 10, 30, 40, 50, 60]).length < 5 ∧
    calibrateShelf 0 [10, 10, 10, 10, 10, 10, 30, 40, 50, 60] initialState
      = (-1, initialState) :=
  ⟨by decide, by decide,
    claimC2_calibrate_failure_atomic initialState 0 _ (by decide) (by decide)⟩

/-- Claim C10: for every integer slot index outside [0, SHELF_COUNT),
`isShelfEnabled` returns false, `getShelfId` returns "UNKNOWN",
`setShelfEnabled` leaves the state (slots and persistent store) unchanged,
and `calibrateShelf` returns −1.0 without reading any sample and without
mutating any state. -/
theorem claimC10_out_of_range_safe (s : ShelfState) (i : ℤ)
    (hout : i < 0 ∨ (s.slots.length : ℤ) ≤ i) :
    isShelfEnabled i s = false ∧
    getShelfId i s = "UNKNOWN" ∧
    (∀ b, setShelfEnabled i b s = s) ∧
    (∀ samples, calibrateShelf i samples s = (-1, s)) := by
  have hneg : ¬(0 ≤ i ∧ i < (s.slots.length : ℤ)) := by omega
  refine ⟨?_, ?_, ?_, ?_⟩
  · unfold isShelfEnabled; rw [if_neg hneg]
  · unfold getShelfId; rw [if_neg hneg]
  · intro b; unfold setShelfEnabled; rw [if_neg hneg]
  · intro samples; unfold calibrateShelf; rw [if_neg hneg]

theorem claimC10_witness :
    ((-3 : ℤ) < 0 ∨ (initialState.slots.length : ℤ) ≤ -3) ∧
    (isShelfEnabled (-3) initialState = false ∧
     getShelfId (-3) initialState = "UNKNOWN" ∧
     (∀ b, setShelfEnabled (-3) b initialState = initialState) ∧
     (∀ samples, calibrateShelf (-3) samples initialState = (-1, initialState))) :=
  ⟨by decide, claimC10_out_of_range_safe initialState (-3) (by decide)⟩

/-- Claim C4: `resolveMQTTServer` never accepts the all-zero address from
name-service lookup: when the lookup fails (`none`) or returns 0.0.0.0, the
outcome is entirely determined by parsing the static fallback address; a
well-formed static address still yields success with the resolved-IP flag
set (and that address cached), while an unparsable one yields failure with
the flag cleared. -/
theorem claimC4_resolve_rejects_zero (hostLookup staticParse : Option IPv4)
    (st : MqttLinkSt) (h : hostLookup = none ∨ hostLookup = some IPv4.zero) :
    (∀ ip, staticParse = some ip →
      resolveMQTTServer hostLookup staticParse st
        = (true, { resolvedIp := some ip, ipResolved := true })) ∧
    (staticParse = none →
      (resolveMQTTServer hostLookup staticParse st).1 = false ∧
      (resolveMQTTServer hostLookup staticParse st).2.ipResolved = false) := by
  rcases h with h | h <;> subst h
  · constructor
    · intro ip hip; subst hip; rfl
    · intro hip; subst hip; exact ⟨rfl, rfl⟩
  · constructor
    · intro ip hip; subst hip; rfl
    · intro hip; subst hip; exact ⟨rfl, rfl⟩

theorem claimC4_witness :
    ((some IPv4.zero = (none : Option IPv4)) ∨ some IPv4.zero = some IPv4.zero) ∧
    resolveMQTTServer (some IPv4.zero) (some ⟨192, 168, 0, 109⟩)
        ⟨none, false⟩
      = (true, { resolvedIp := some ⟨192, 168, 0, 109⟩, ipResolved := true }) :=
  ⟨Or.inr rfl,
    (claimC4_resolve_rejects_zero (some IPv4.zero) (some ⟨192, 168, 0, 109⟩)
      ⟨none, false⟩ (Or.inr rfl)).1 _ rfl⟩

/-- Claim C5: `setShelfEnabled` is write-through: for every in-range slot
index and boolean value, after the call both the enabled flag and the
slot's current reference length are persisted, and a subsequent
`loadShelfConfig` (reload after restart) restores that slot with exactly
the new enabled value and the previously calibrated length unchanged. -/
theorem claimC5_setEnabled_write_through (s : ShelfState) (i : ℤ) (b : Bool)
    (hrange : 0 ≤ i ∧ i < (s.slots.length : ℤ)) :
    (setShelfEnabled i b s).prefs.getBool (s.slots.getD i.toNat Slot.dflt).id false = b ∧
    (setShelfEnabled i b s).prefs.getFloat
        ((s.slots.getD i.toNat Slot.dflt).id ++ "_len") 0
      = (s.slots.getD i.toNat Slot.dflt).shelf_length ∧
    (loadShelfConfig (setShelfEnabled i b s)).slots.getD i.toNat Slot.dflt
      = { s.slots.getD i.toNat Slot.dflt with enabled := b } := by
  have hn : i.toNat < s.slots.length := by omega
  set sl := s.slots.getD i.toNat Slot.dflt with hsl
  have hset : setShelfEnabled i b s
      = saveShelfConfig i { s with slots := s.slots.set i.toNat { sl with enabled := b } } := by
    unfold setShelfEnabled
    rw [if_pos hrange]
  have hslots : ({ s with slots := s.slots.set i.toNat { sl with enabled := b } }
      : ShelfState).slots.getD i.toNat Slot.dflt = { sl with enabled := b } :=
    getD_set_self _ _ _ _ hn
  have hsave : setShelfEnabled i b s
      = { s with
          slots := s.slots.set i.toNat { sl with enabled := b }
          prefs := (s.prefs.putBool sl.id b).putFloat (sl.id ++ "_len") sl.shelf_length } := by
    rw [hset]
    unfold saveShelfConfig
    rw [if_pos (by simpa using hrange)]
    simp only [hslots]
  have hb : (setShelfEnabled i b s).prefs.getBool sl.id false = b := by
    rw [hsave]
    simp only []
    rw [Prefs.getBool_putFloat, Prefs.getBool_putBool_self]
  have hf : (setShelfEnabled i b s).prefs.getFloat (sl.id ++ "_len") 0 = sl.shelf_length := by
    rw [hsave]
    simp only []
    rw [Prefs.getFloat_putFloat_self]
  refine ⟨hb, hf, ?_⟩
  have hslots' : (setShelfEnabled i b s).slots.getD i.toNat Slot.dflt
      = { sl with enabled := b } := by
    rw [hsave]
    exact getD_set_self _ _ _ _ hn
  have hlen : i.toNat < (setShelfEnabled i b s).slots.length := by
    rw [hsave]; simpa using hn
  unfold loadShelfConfig
  simp only []
  rw [getD_map_of_lt _ _ _ Slot.dflt _ hlen, hslots']
  simp only []
  rw [hb, hf]

theorem claimC5_witness :
    (0 ≤ (2 : ℤ) ∧ (2 : ℤ) < (initialState.slots.length : ℤ)) ∧
    ((setShelfEnabled 2 true initialState).prefs.getBool
        (initialState.slots.getD (2 : ℤ).toNat Slot.dflt).id false = true ∧
     (setShelfEnabled 2 true initialState).prefs.getFloat
        ((initialState.slots.getD (2 : ℤ).toNat Slot.dflt).id ++ "_len") 0
       = (initialState.slots.getD (2 : ℤ).toNat Slot.dflt).shelf_length ∧
     (loadShelfConfig (setShelfEnabled 2 true initialState)).slots.getD
        (2 : ℤ).toNat Slot.dflt
       = { initialState.slots.getD (2 : ℤ).toNat Slot.dflt with enabled := true }) :=
  ⟨by decide, claimC5_setEnabled_write_through initialState 2 true (by decide)⟩

def demoCalSamples : List ℤ := [198, 201, 199, 15, 202, 197, 4500, 200, 203, 196]

lemma calibrateShelf_success_spec (s : ShelfState) (i : ℤ) (samples : List ℤ)
    (hrange : 0 ≤ i ∧ i < (s.slots.length : ℤ))
    (hvalid : 5 ≤ (validCalSamples samples).length) :
    calibrateShelf i samples s = calibrateShelf i (samples.take 10) s ∧
    (calibrateShelf i samples s).1
      = ((validCalSamples samples).map (fun d : ℤ => (d : ℚ) / 10)).sum
          / ((validCalSamples samples).length : ℚ) ∧
    ((calibrateShelf i samples s).2.slots.getD i.toNat Slot.dflt).shelf_length
      = (calibrateShelf i samples s).1 ∧
    (calibrateShelf i samples s).2.prefs.getFloat
        ((s.slots.getD i.toNat Slot.dflt).id ++ "_len") 0
      = (calibrateShelf i samples s).1 := by
  have hn : i.toNat < s.slots.length := by omega
  have htake : calibrateShelf i samples s = calibrateShelf i (samples.take 10) s := by
    unfold calibrateShelf validCalSamples
    rw [List.take_take]
    simp
  have hnotlt : ¬(((validCalSamples samples).map (fun d : ℤ => (d : ℚ) / 10)).length < 5) := by
    rw [List.length_map]; omega
  set A := ((validCalSamples samples).map (fun d : ℤ => (d : ℚ) / 10)).sum
      / (((validCalSamples samples).map (fun d : ℤ => (d : ℚ) / 10)).length : ℚ) with hA
  set sl := s.slots.getD i.toNat Slot.dflt with hsl
  have hcal : calibrateShelf i samples s
      = (A, saveShelfConfig i
          { s with slots := s.slots.set i.toNat { sl with shelf_length := A } }) := by
    unfold calibrateShelf
    rw [if_pos hrange]
    simp only []
    rw [if_neg hnotlt]
  have hAlen : A = ((validCalSamples samples).map (fun d : ℤ => (d : ℚ) / 10)).sum
      / ((validCalSamples samples).length : ℚ) := by
    rw [hA, List.length_map]
  have hslen : i.toNat
      < (s.slots.set i.toNat { sl with shelf_length := A }).length := by
    simpa using hn
  have hgets : (s.slots.set i.toNat { sl with shelf_length := A }).getD i.toNat Slot.dflt
      = { sl with shelf_length := A } := getD_set_self _ _ _ _ hn
  have hsave : saveShelfConfig i
      { s with slots := s.slots.set i.toNat { sl with shelf_length := A } }
      = { s with
          slots := s.slots.set i.toNat { sl with shelf_length := A }
          prefs := (s.prefs.putBool sl.id sl.enabled).putFloat (sl.id ++ "_len") A } := by
    unfold saveShelfConfig
    rw [if_pos (by simpa using hrange)]
    simp only [hgets]
  refine ⟨htake, ?_, ?_, ?_⟩
  · rw [hcal, ← hAlen]
  · rw [hcal, hsave]
    simp only []
    rw [getD_set_self _ _ _ _ hn]
  · rw [hcal, hsave]
    simp only []
    rw [Prefs.getFloat_putFloat_self]

/-- Claim C1: for every in-range slot index, `calibrateShelf` takes exactly
the first 10 ranging samples, keeps exactly those in [20mm, 4000mm], and
with at least 5 valid samples it returns the exact arithmetic mean (in
centimeters) of only the valid samples, stores it as the slot's reference
length and persists it; on the sample sequence
[198,201,199,15,202,197,4500,200,203,196] mm it discards 15 and 4500 and
yields 19.95 cm (= 399/20), which is positive, so the router reports
success. -/
theorem claimC1_calibrate_success (s : ShelfState) (i : ℤ) (samples : List ℤ)
    (hrange : 0 ≤ i ∧ i < (s.slots.length : ℤ))
    (hvalid : 5 ≤ (validCalSamples samples).length) :
    (calibrateShelf i samples s = calibrateShelf i (samples.take 10) s ∧
     (calibrateShelf i samples s).1
       = ((validCalSamples samples).map (fun d : ℤ => (d : ℚ) / 10)).sum
           / ((validCalSamples samples).length : ℚ) ∧
     ((calibrateShelf i samples s).2.slots.getD i.toNat Slot.dflt).shelf_length
       = (calibrateShelf i samples s).1 ∧
     (calibrateShelf i samples s).2.prefs.getFloat
         ((s.slots.getD i.toNat Slot.dflt).id ++ "_len") 0
       = (calibrateShelf i samples s).1) ∧
    ((calibrateShelf 0 demoCalSamples initialState).1 = 399 / 20 ∧
     (0 : ℚ) < 399 / 20) := by
  refine ⟨calibrateShelf_success_spec s i samples hrange hvalid, ?_, by norm_num⟩
  have h := (calibrateShelf_success_spec initialState 0 demoCalSamples
    (by decide) (by decide)).2.1
  rw [h]
  norm_num [validCalSamples, demoCalSamples]

theorem claimC1_witness :
    (0 ≤ (0 : ℤ) ∧ (0 : ℤ) < (initialState.slots.length : ℤ)) ∧
    5 ≤ (validCalSamples demoCalSamples).length ∧
    ((calibrateShelf 0 demoCalSamples initialState).1 = 399 / 20 ∧
     (0 : ℚ) < 399 / 20) :=
  ⟨by decide, by decide,
    (claimC1_calibrate_success initialState 0 demoCalSamples (by decide) (by decide)).2⟩

lemma ConnectWiFi_head (g : ℕ → Bool) (N k : ℕ) (hN : 0 < N) (hk : k < N) (conn : Bool) :
    (ConnectWiFi g N ⟨conn, k⟩).2.head? = some k := by
  obtain ⟨m, rfl⟩ : ∃ m, N = m + 1 := ⟨N - 1, by omega⟩
  unfold ConnectWiFi
  rw [List.range_succ_eq_map]
  cases hg : (connectWiFiLoop g (m + 1) k (0 :: (List.range m).map Nat.succ)).2 with
  | none =>
    simp only [hg]
    rw [connectWiFiLoop_head]
    rw [Nat.add_zero, Nat.mod_eq_of_lt hk]
  | some k' =>
    simp only [hg]
    rw [connectWiFiLoop_head]
    rw [Nat.add_zero, Nat.mod_eq_of_lt hk]

/-- Claim C3: one invocation of the Wi-Fi connect rotation attempts at most
N credentials, all distinct, visiting indices (last + i) mod N for
i = 0..N−1 in order (its attempt list is an initial segment of that
rotation), stopping at the first success: on total failure all N rotation
indices were attempted and all failed; on success the attempts are the
failing front of the rotation followed by the succeeding index k, the
cursor is set to k, and the next invocation begins its rotation at k. -/
theorem claimC3_wifi_rotation (f : ℕ → Bool) (N : ℕ) (hN : 0 < N) (st : WiFiSt) :
    (ConnectWiFi f N st).2.length ≤ N ∧
    (ConnectWiFi f N st).2.Nodup ∧
    (∃ t, (ConnectWiFi f N st).2 ++ t = connectTries N st.lastSuccessfulWiFiIndex) ∧
    ((ConnectWiFi f N st).1.wifiConnected = false →
      (ConnectWiFi f N st).2 = connectTries N st.lastSuccessfulWiFiIndex ∧
      (∀ a ∈ connectTries N st.lastSuccessfulWiFiIndex, f a = false) ∧
      (ConnectWiFi f N st).1.lastSuccessfulWiFiIndex = st.lastSuccessfulWiFiIndex) ∧
    ((ConnectWiFi f N st).1.wifiConnected = true →
      (ConnectWiFi f N st).2
        = (connectTries N st.lastSuccessfulWiFiIndex).takeWhile (fun a => !f a)
            ++ [(ConnectWiFi f N st).1.lastSuccessfulWiFiIndex] ∧
      f (ConnectWiFi f N st).1.lastSuccessfulWiFiIndex = true ∧
      ∀ g : ℕ → Bool,
        (ConnectWiFi g N (ConnectWiFi f N st).1).2.head?
          = some (ConnectWiFi f N st).1.lastSuccessfulWiFiIndex) := by
  have happ := connectWiFiLoop_append f N st.lastSuccessfulWiFiIndex (List.range N)
  have hvisit : (List.range N).map (fun i => (st.lastSuccessfulWiFiIndex + i) % N)
      = connectTries N st.lastSuccessfulWiFiIndex := rfl
  rw [hvisit] at happ
  obtain ⟨t, ht⟩ := happ
  have hlenvisit : (connectTries N st.lastSuccessfulWiFiIndex).length = N := by
    simp [connectTries]
  have hlen : (connectWiFiLoop f N st.lastSuccessfulWiFiIndex (List.range N)).1.length ≤ N := by
    have := congrArg List.length ht
    simp only [List.length_append] at this
    omega
  have hsub : (connectWiFiLoop f N st.lastSuccessfulWiFiIndex (List.range N)).1.Sublist
      (connectTries N st.lastSuccessfulWiFiIndex) := by
    rw [← ht]
    exact List.sublist_append_left _ _
  have hnodup := List.Nodup.sublist hsub (connectTries_nodup N st.lastSuccessfulWiFiIndex)
  cases hr : (connectWiFiLoop f N st.lastSuccessfulWiFiIndex (List.range N)).2 with
  | none =>
    obtain ⟨h1, h2⟩ := connectWiFiLoop_none f N st.lastSuccessfulWiFiIndex (List.range N) hr
    rw [hvisit] at h1 h2
    have hcw : ConnectWiFi f N st
        = ({ st with wifiConnected := false },
           (connectWiFiLoop f N st.lastSuccessfulWiFiIndex (List.range N)).1) := by
      unfold ConnectWiFi
      simp only [hr]
    rw [hcw]
    refine ⟨hlen, hnodup, ⟨t, ht⟩, ?_, ?_⟩
    · intro _
      exact ⟨h1, h2, rfl⟩
    · intro hcontra
      simp at hcontra
  | some k =>
    obtain ⟨h1, h2⟩ := connectWiFiLoop_some f N st.lastSuccessfulWiFiIndex (List.range N) k hr
    rw [hvisit] at h1
    have hcw : ConnectWiFi f N st
        = ({ wifiConnected := true, lastSuccessfulWiFiIndex := k },
           (connectWiFiLoop f N st.lastSuccessfulWiFiIndex (List.range N)).1) := by
      unfold ConnectWiFi
      simp only [hr]
    have hkmem : k ∈ connectTries N st.lastSuccessfulWiFiIndex := by
      rw [← ht]
      apply List.mem_append_left
      rw [h1]
      exact List.mem_append_right _ (List.mem_singleton.mpr rfl)
    have hkN : k < N := mem_connectTries_lt N st.lastSuccessfulWiFiIndex k hN hkmem
    rw [hcw]
    refine ⟨hlen, hnodup, ⟨t, ht⟩, ?_, ?_⟩
    · intro hcontra
      simp at hcontra
    · intro _
      refine ⟨h1, h2, ?_⟩
      intro g
      exact ConnectWiFi_head g N k hN hkN true

theorem claimC3_witness :
    0 < 2 ∧
    ((ConnectWiFi (fun n => n == 1) 2 ⟨false, 0⟩).2.length ≤ 2 ∧
     (ConnectWiFi (fun n => n == 1) 2 ⟨false, 0⟩).2.Nodup ∧
     (∃ t, (ConnectWiFi (fun n => n == 1) 2 ⟨false, 0⟩).2 ++ t
        = connectTries 2 (WiFiSt.mk false 0).lastSuccessfulWiFiIndex) ∧
     ((ConnectWiFi (fun n => n == 1) 2 ⟨false, 0⟩).1.wifiConnected = false →
       (ConnectWiFi (fun n => n == 1) 2 ⟨false, 0⟩).2
         = connectTries 2 (WiFiSt.mk false 0).lastSuccessfulWiFiIndex ∧
       (∀ a ∈ connectTries 2 (WiFiSt.mk false 0).lastSuccessfulWiFiIndex,
          (fun n => n == 1) a = false) ∧
       (ConnectWiFi (fun n => n == 1) 2 ⟨false, 0⟩).1.lastSuccessfulWiFiIndex
         = (WiFiSt.mk false 0).lastSuccessfulWiFiIndex) ∧
     ((ConnectWiFi (fun n => n == 1) 2 ⟨false, 0⟩).1.wifiConnected = true →
       (ConnectWiFi (fun n => n == 1) 2 ⟨false, 0⟩).2
         = (connectTries 2 (WiFiSt.mk false 0).lastSuccessfulWiFiIndex).takeWhile
             (fun a => !(fun n => n == 1) a)
             ++ [(ConnectWiFi (fun n => n == 1) 2 ⟨false, 0⟩).1.lastSuccessfulWiFiIndex] ∧
       (fun n => n == 1) (ConnectWiFi (fun n => n == 1) 2
           ⟨false, 0⟩).1.lastSuccessfulWiFiIndex = true ∧
       ∀ g : ℕ → Bool,
         (ConnectWiFi g 2 (ConnectWiFi (fun n => n == 1) 2 ⟨false, 0⟩).1).2.head?
           = some (ConnectWiFi (fun n => n == 1) 2
               ⟨false, 0⟩).1.lastSuccessfulWiFiIndex)) :=
  ⟨by decide, claimC3_wifi_rotation (fun n => n == 1) 2 (by decide) ⟨false, 0⟩⟩

def cexState : ShelfState :=
  setShelfEnabled 0 false
    (readAllShelfSensors (fun _ => 100) (setShelfEnabled 0 true initialState))

/-- Claim C6 (counterexample): the state reached by enabling slot 0,
running one scan cycle that reads 100 mm, and then disabling slot 0 is
reachable, yet the disabled slot's stored distance sample is 100, not the
sentinel −1 — so it is false that at every reachable state every disabled
slot's stored sample equals −1. -/
theorem claimC6_counterexample :
    SysReachable cexState ∧
    (cexState.slots.getD 0 Slot.dflt).enabled = false ∧
    cexState.distance.getD 0 0 = 100 ∧ (100 : ℤ) ≠ -1 := by
  refine ⟨?_, by decide, by decide, by decide⟩
  have h1 : SysStep initialState (setShelfEnabled 0 true initialState) :=
    SysStep.setEnabled 0 true initialState
  have h2 : SysStep (setShelfEnabled 0 true initialState)
      (readAllShelfSensors (fun _ => 100) (setShelfEnabled 0 true initialState)) :=
    SysStep.scan _ _
  have h3 : SysStep
      (readAllShelfSensors (fun _ => 100) (setShelfEnabled 0 true initialState)) cexState :=
    SysStep.setEnabled 0 false _
  exact Relation.ReflTransGen.tail (Relation.ReflTransGen.tail
    (Relation.ReflTransGen.tail Relation.ReflTransGen.refl h1) h2) h3

/-- Claim C6 (amended): after every scan cycle (`readAllShelfSensors`),
every disabled slot's stored distance sample equals the sentinel −1; and a
disabled slot is never included in a shelf/sensor publication — its single
publication is empty and every message emitted by the bulk publication
belongs to an enabled slot. (The original claim, quantified over every
reachable state, fails: at boot samples start at 0 and a disable command
leaves the stale sample until the next scan.) -/
theorem claimC6_disabled_slot_amended (readings : ℕ → ℤ) (c : Bool) (dev : String)
    (s : ShelfState) (i : ℕ) (hi : i < s.slots.length)
    (hdis : (s.slots.getD i Slot.dflt).enabled = false) :
    (readAllShelfSensors readings s).distance.getD i 0 = -1 ∧
    publishSensorData c dev (i : ℤ) s = [] ∧
    (∀ d2 sid j q, Msg.sensorData d2 sid j q ∈ publishAllSensorData c dev s →
      (s.slots.getD j.toNat Slot.dflt).enabled = true) := by
  refine ⟨?_, ?_, ?_⟩
  · unfold readAllShelfSensors
    simp only []
    rw [getD_map_range _ _ _ _ hi, hdis]
    simp
  · cases c with
    | false => unfold publishSensorData; simp
    | true =>
      unfold publishSensorData
      rw [if_neg (by decide : ¬(true = false))]
      rw [if_neg (by push_neg; omega : ¬((i : ℤ) < 0 ∨ (s.slots.length : ℤ) ≤ (i : ℤ)))]
      simp only [Int.toNat_natCast]
      rw [if_pos hdis]
  · intro d2 sid j q hmem
    cases c with
    | false => unfold publishAllSensorData at hmem; simp at hmem
    | true =>
      unfold publishAllSensorData at hmem
      rw [if_neg (by decide : ¬(true = false))] at hmem
      rw [List.mem_flatten] at hmem
      obtain ⟨l, hl, hml⟩ := hmem
      rw [List.mem_map] at hl
      obtain ⟨i', hi', rfl⟩ := hl
      by_cases he : (s.slots.getD i' Slot.dflt).enabled = true
      · rw [if_pos he] at hml
        unfold publishSensorData at hml
        rw [if_neg (by decide : ¬(true = false))] at hml
        by_cases hrange : ((i' : ℤ) < 0 ∨ (s.slots.length : ℤ) ≤ (i' : ℤ))
        · rw [if_pos hrange] at hml
          simp at hml
        · rw [if_neg hrange] at hml
          simp only [] at hml
          by_cases he2 : (s.slots.getD ((i' : ℤ)).toNat Slot.dflt).enabled = false
          · rw [if_pos he2] at hml
            simp at hml
          · rw [if_neg he2] at hml
            rw [List.mem_singleton] at hml
            simp only [Msg.sensorData.injEq] at hml
            obtain ⟨_, _, hj, _⟩ := hml
            rw [hj, Int.toNat_natCast]
            simpa using he
      · rw [if_neg he] at hml
        simp at hml

theorem claimC6_amended_witness :
    0 < cexState.slots.length ∧
    (cexState.slots.getD 0 Slot.dflt).enabled = false ∧
    ((readAllShelfSensors (fun _ => 100) cexState).distance.getD 0 0 = -1 ∧
     publishSensorData true "DEV" ((0 : ℕ) : ℤ) cexState = [] ∧
     (∀ d2 sid j q, Msg.sensorData d2 sid j q ∈ publishAllSensorData true "DEV" cexState →
       (cexState.slots.getD j.toNat Slot.dflt).enabled = true)) :=
  ⟨by decide, by decide,
    claimC6_disabled_slot_amended (fun _ => 100) true "DEV" cexState 0
      (by decide) (by decide)⟩

lemma getShelfIndexById_nonneg (s : ShelfState) (sid : String)
    (h : 0 ≤ getShelfIndexById s sid) :
    (getShelfIndexById s sid).toNat < s.slots.length ∧
    (s.slots.getD (getShelfIndexById s sid).toNat Slot.dflt).id = sid :=
  getShelfIndexByIdL_nonneg sid s.slots h

/-- Claim C7: command verbs are matched case-insensitively and the
slot-identifier argument is trimmed and upper-cased before lookup:
"ENABLE a1" is routed exactly like "enable a1"; "enable a1" looks up "A1",
enables that slot (and emits the status report); and an enable/disable
command whose upper-cased identifier matches no configured slot returns
with the state completely unchanged and no message published. -/
theorem claimC7_command_normalization (c : Bool) (d : String) (r : ℕ → ℤ)
    (cal : List ℤ) (s : ShelfState) (idxA1 : ℤ)
    (hA1 : getShelfIndexById s "A1" = idxA1) (hge : 0 ≤ idxA1)
    (t u : String)
    (ht : strTrim ("enable " ++ t) = "enable " ++ t)
    (hu : strTrim ("disable " ++ u) = "disable " ++ u)
    (hmisst : getShelfIndexById s (strUpper (strTrim t)) = -1)
    (hmissu : getShelfIndexById s (strUpper (strTrim u)) = -1) :
    handleMQTTCommand c d r cal "ENABLE a1" s = handleMQTTCommand c d r cal "enable a1" s ∧
    handleMQTTCommand c d r cal "enable a1" s
      = (setShelfEnabled idxA1 true s,
         publishSystemStatus c d (setShelfEnabled idxA1 true s)) ∧
    isShelfEnabled idxA1 (setShelfEnabled idxA1 true s) = true ∧
    handleMQTTCommand c d r cal ("enable " ++ t) s = (s, []) ∧
    handleMQTTCommand c d r cal ("disable " ++ u) s = (s, []) := by
  have key : handleMQTTCommand c d r cal "enable a1" s
      = (let idx := getShelfIndexById s "A1";
         if 0 ≤ idx then
           (setShelfEnabled idx true s,
            publishSystemStatus c d (setShelfEnabled idx true s))
         else (s, [])) := rfl
  refine ⟨rfl, ?_, ?_, ?_, ?_⟩
  · rw [key]
    simp only [hA1]
    rw [if_pos hge]
  · have h0 : 0 ≤ getShelfIndexById s "A1" := by rw [hA1]; exact hge
    have hlt := (getShelfIndexById_nonneg s "A1" h0).1
    rw [hA1] at hlt
    exact isShelfEnabled_setShelfEnabled idxA1 true s ⟨hge, by omega⟩
  · have key4 : handleMQTTCommand c d r cal ("enable " ++ t) s
        = (let shelfId := strUpper (strTrim t);
           let idx := getShelfIndexById s shelfId;
           if 0 ≤ idx then
             (setShelfEnabled idx true s,
              publishSystemStatus c d (setShelfEnabled idx true s))
           else (s, [])) := by
      unfold handleMQTTCommand
      rw [ht]
      rfl
    rw [key4]
    simp only [hmisst]
    rw [if_neg (by decide : ¬(0 ≤ (-1 : ℤ)))]
  · have key5 : handleMQTTCommand c d r cal ("disable " ++ u) s
        = (let shelfId := strUpper (strTrim u);
           let idx := getShelfIndexById s shelfId;
           if 0 ≤ idx then
             (setShelfEnabled idx false s,
              publishSystemStatus c d (setShelfEnabled idx false s))
           else (s, [])) := by
      unfold handleMQTTCommand
      rw [hu]
      rfl
    rw [key5]
    simp only [hmissu]
    rw [if_neg (by decide : ¬(0 ≤ (-1 : ℤ)))]

theorem claimC7_witness :
    getShelfIndexById initialState "A1" = 0 ∧ (0 : ℤ) ≤ 0 ∧
    strTrim ("enable " ++ "Z9") = "enable " ++ "Z9" ∧
    strTrim ("disable " ++ "Z9") = "disable " ++ "Z9" ∧
    getShelfIndexById initialState (strUpper (strTrim "Z9")) = -1 ∧
    (handleMQTTCommand true "DEV" (fun _ => 0) [] "ENABLE a1" initialState
       = handleMQTTCommand true "DEV" (fun _ => 0) [] "enable a1" initialState ∧
     handleMQTTCommand true "DEV" (fun _ => 0) [] "enable a1" initialState
       = (setShelfEnabled 0 true initialState,
          publishSystemStatus true "DEV" (setShelfEnabled 0 true initialState)) ∧
     isShelfEnabled 0 (setShelfEnabled 0 true initialState) = true ∧
     handleMQTTCommand true "DEV" (fun _ => 0) [] ("enable " ++ "Z9") initialState
       = (initialState, []) ∧
     handleMQTTCommand true "DEV" (fun _ => 0) [] ("disable " ++ "Z9") initialState
       = (initialState, [])) :=
  ⟨by decide, by decide, by decide, by decide, by decide,
    claimC7_command_normalization true "DEV" (fun _ => 0) [] initialState 0
      (by decide) (by decide) "Z9" "Z9" (by decide) (by decide) (by decide) (by decide)⟩

/-- Claim C8: every calibrate command (with a well-formed argument) emits
exactly one calibration-result message, success or failure; in particular
a calibrate command naming an unknown slot identifier emits one result
message with success false and shelf_length −1, and mutates no state. -/
theorem claimC8_calibrate_always_responds (d : String) (r : ℕ → ℤ) (cal : List ℤ)
    (s : ShelfState) (rest : String)
    (htrim : strTrim ("calibrate " ++ rest) = "calibrate " ++ rest) :
    (∃ succ len, (handleMQTTCommand true d r cal ("calibrate " ++ rest) s).2
        = [Msg.calibrateResult d (strUpper (strTrim rest)) succ len]) ∧
    (getShelfIndexById s (strUpper (strTrim rest)) = -1 →
      handleMQTTCommand true d r cal ("calibrate " ++ rest) s
        = (s, [Msg.calibrateResult d (strUpper (strTrim rest)) false (-1)])) := by
  have key : handleMQTTCommand true d r cal ("calibrate " ++ rest) s
      = (let shelfId := strUpper (strTrim rest);
         let idx := getShelfIndexById s shelfId;
         if 0 ≤ idx then
           let rr := calibrateShelf idx cal s
           (rr.2, publishCalibrateResult true d shelfId rr.1 (decide (0 < rr.1)))
         else (s, publishCalibrateResult true d shelfId (-1) false)) := by
    unfold handleMQTTCommand
    rw [htrim]
    rfl
  constructor
  · rw [key]
    simp only []
    by_cases hidx : 0 ≤ getShelfIndexById s (strUpper (strTrim rest))
    · rw [if_pos hidx]
      refine ⟨decide (0 < (calibrateShelf (getShelfIndexById s
          (strUpper (strTrim rest))) cal s).1),
        (calibrateShelf (getShelfIndexById s (strUpper (strTrim rest))) cal s).1, ?_⟩
      simp only []
      unfold publishCalibrateResult
      rw [if_pos rfl]
    · rw [if_neg hidx]
      refine ⟨false, -1, ?_⟩
      unfold publishCalibrateResult
      rw [if_pos rfl]
  · intro hm
    rw [key]
    simp only [hm]
    rw [if_neg (by decide : ¬(0 ≤ (-1 : ℤ)))]
    unfold publishCalibrateResult
    rw [if_pos rfl]

theorem claimC8_witness :
    strTrim ("calibrate " ++ "Z9") = "calibrate " ++ "Z9" ∧
    getShelfIndexById initialState (strUpper (strTrim "Z9")) = -1 ∧
    ((∃ succ len,
        (handleMQTTCommand true "DEV" (fun _ => 0) [] ("calibrate " ++ "Z9")
            initialState).2
          = [Msg.calibrateResult "DEV" (strUpper (strTrim "Z9")) succ len]) ∧
     (getShelfIndexById initialState (strUpper (strTrim "Z9")) = -1 →
       handleMQTTCommand true "DEV" (fun _ => 0) [] ("calibrate " ++ "Z9") initialState
         = (initialState,
            [Msg.calibrateResult "DEV" (strUpper (strTrim "Z9")) false (-1)]))) :=
  ⟨by decide, by decide,
    claimC8_calibrate_always_responds "DEV" (fun _ => 0) [] initialState "Z9" (by decide)⟩

lemma hasSubstr_device_id_pos (hay : List Char) :
    hasSubstrL ("\"device_id\"".toList) hay = true → 0 < hay.length := by
  cases hay with
  | nil => intro h; exact absurd h (by decide)
  | cons c t => intro _; simp

/-- Claim C9: a configuration-request message that contains the JSON-key
substring "device_id" (with its surrounding quote characters, as the
firmware's indexOf check looks for) but does not contain this device's
identity is silently ignored — nothing is published; every other message,
including the empty one, yields exactly one config response listing every
configured slot with its shelf_id, index, gpio, enabled flag and
shelf_length. -/
theorem claimC9_config_request (c : Bool) (dev msg : String) (s : ShelfState) :
    (strHasSubstr msg "\"device_id\"" = true → strHasSubstr msg dev = false →
      handleShelfConfigRequest c dev msg s = []) ∧
    ((strHasSubstr msg "\"device_id\"" = false ∨ strHasSubstr msg dev = true) →
      handleShelfConfigRequest true dev msg s
        = [Msg.configResponse dev (configEntries s) s.slots.length
            (getEnabledShelfCount s)] ∧
      ∀ i, i < s.slots.length →
        (configEntries s).getD i ConfigEntry.dflt
          = ⟨(s.slots.getD i Slot.dflt).id, i, (s.slots.getD i Slot.dflt).pin,
             (s.slots.getD i Slot.dflt).enabled,
             (s.slots.getD i Slot.dflt).shelf_length⟩) := by
  constructor
  · intro h1 h2
    unfold handleShelfConfigRequest
    rw [if_pos ⟨hasSubstr_device_id_pos msg.toList h1, h2, h1⟩]
  · intro h
    have hneg : ¬(msg.toList.length > 0 ∧ strHasSubstr msg dev = false ∧
        strHasSubstr msg "\"device_id\"" = true) := by
      rintro ⟨_, hdev, hdq⟩
      rcases h with h | h
      · rw [h] at hdq; exact absurd hdq (by decide)
      · rw [h] at hdev; exact absurd hdev (by decide)
    constructor
    · unfold handleShelfConfigRequest
      rw [if_neg hneg, if_pos rfl]
    · intro i hi
      unfold configEntries
      rw [getD_map_range _ _ _ _ hi]

theorem claimC9_witness :
    (strHasSubstr "\"device_id\": \"ESP32S3_OTHER\"" "\"device_id\"" = true ∧
     strHasSubstr "\"device_id\": \"ESP32S3_OTHER\"" "ESP32S3_ABC" = false ∧
     handleShelfConfigRequest true "ESP32S3_ABC" "\"device_id\": \"ESP32S3_OTHER\""
        initialState = []) ∧
    (strHasSubstr "" "\"device_id\"" = false ∧
     handleShelfConfigRequest true "ESP32S3_ABC" "" initialState
       = [Msg.configResponse "ESP32S3_ABC" (configEntries initialState)
           initialState.slots.length (getEnabledShelfCount initialState)]) :=
  ⟨⟨by decide, by decide,
    (claimC9_config_request true "ESP32S3_ABC" "\"device_id\": \"ESP32S3_OTHER\""
      initialState).1 (by decide) (by decide)⟩,
   ⟨by decide,
    ((claimC9_config_request true "ESP32S3_ABC" "" initialState).2
      (Or.inl (by decide))).1⟩⟩
